import Mathlib

/-
  Verification of the bnbalerts watch-scheduling and scan-processing core.

  The Python source is embedded shallowly:
  * timestamps are natural numbers of microseconds since a midnight-aligned
    epoch (Python `datetime` arithmetic with `timedelta` is exact arithmetic
    on this representation; `replace(hour=.., minute=0, second=0,
    microsecond=0)` only touches the within-day part, so it maps to plain
    div/mod arithmetic on the same representation);
  * MongoDB reads/writes and the scraping-provider call are modelled as an
    explicit environment (`ScanEnv`) recording, for each external operation a
    scan tick performs, whether it returns a value or raises; Python
    `try/except` blocks become `match` on those `Except` outcomes;
  * Python dicts coming from the scraper are the structure `ScrapedProperty`
    whose fields are `Option`s (`dict.get` with no default is field access,
    `dict.get` with a default is `Option.getD`).
-/

namespace BnbAlerts

/-! ## Time representation: microseconds since a midnight-aligned epoch -/

def usPerSecond : Nat := 1000000

def usPerMinute : Nat := 60 * usPerSecond

def usPerHour : Nat := 60 * usPerMinute

def usPerDay : Nat := 24 * usPerHour

/-- Day number of a timestamp (`t` in microseconds). -/
def dayIndex (t : Nat) : Nat := t / usPerDay

/-- Hour-of-day (0..23) of a timestamp. -/
def hourOfDay (t : Nat) : Nat := t % usPerDay / usPerHour

/-! ## Constants from app/core/constants.py -/

def MAX_ACTIVE_WATCHES_PER_USER : Nat := 5

def NOTIFICATION_COOLDOWN_HOURS : Nat := 24

def DAILY_SCAN_HOUR : Nat := 12

def HOURLY_SCAN_INTERVAL_HOURS : Nat := 1

def SNIPER_SCAN_INTERVAL_MINUTES : Nat := 5

/-- Cooldown expressed in the microsecond time representation
(`timedelta(hours=NOTIFICATION_COOLDOWN_HOURS)`). -/
def NOTIFICATION_COOLDOWN_US : Nat := NOTIFICATION_COOLDOWN_HOURS * usPerHour

/-- `dt.replace(hour := h, minute := 0, second := 0, microsecond := 0)`:
keep the day, set the hour, zero everything below. -/
def replaceHourZeroRest (t h : Nat) : Nat :=
  (t / usPerDay) * usPerDay + h * usPerHour

/-- `dt.replace(minute := 0, second := 0, microsecond := 0)`:
floor to the containing hour. -/
def floorToHour (t : Nat) : Nat := (t / usPerHour) * usPerHour

/-- `calculate_next_scan_time` from app/api/watches.py, identical to
`SchedulerService._calculate_next_scan_time` in app/services/scheduler.py
(the branch structure and constants are the same in both copies). -/
def calculate_next_scan_time (frequency : String) (base_time : Nat) : Nat :=
  if frequency = "daily" then
    replaceHourZeroRest (base_time + usPerDay) DAILY_SCAN_HOUR
  else if frequency = "hourly" then
    floorToHour (base_time + HOURLY_SCAN_INTERVAL_HOURS * usPerHour)
  else if frequency = "sniper" then
    base_time + SNIPER_SCAN_INTERVAL_MINUTES * usPerMinute
  else
    floorToHour (base_time + HOURLY_SCAN_INTERVAL_HOURS * usPerHour)

/-! ## Data model -/

/-- ScanResult from app/models/scan_log.py; `p_match` embeds the source's
PARTIAL_MATCH value (renamed, never produced by the embedded code paths). -/
inductive ScanResult where
  | available
  | unavailable
  | p_match
deriving DecidableEq, Repr

/-- ScanStatus from app/models/scan_log.py. -/
inductive ScanStatus where
  | success
  | failed
  | error
deriving DecidableEq, Repr

/-- The fields of a ScanLog document that the embedded control flow writes
(`check_in`/`check_out` snapshots, wall-clock `response_time_ms` and
`created_at` are real-time data with no influence on control flow and are
not represented). -/
structure ScanLogRecord where
  watch_id : String
  status : ScanStatus
  result : Option ScanResult
  error_message : Option String
deriving DecidableEq, Repr

/-- One scraped-property dict as produced by the provider; `dict.get` with no
default is plain field access, `dict.get k default` is `Option.getD`. -/
structure ScrapedProperty where
  propertyId : Option String
  propertyName : Option String
  location : Option String
  price : Option String
  imageUrl : Option String
  guests : Option Nat
  propertyUrl : Option String
deriving DecidableEq, Repr

/-- PropertyResult from app/models/property.py, as constructed inside
`AvailabilityChecker.check_availability`. -/
structure PropertyResult where
  propertyId : String
  propertyName : String
  location : String
  price : String
  imageUrl : Option String
  dates : String
  guests : Nat
  status : String
  propertyUrl : String
deriving DecidableEq, Repr

/-- WatchInDB from app/models/watch.py, restricted to the fields the embedded
services read (check-in/check-out appear only through their `isoformat()`
strings and the microsecond timestamps). -/
structure Watch where
  id : String
  userId : String
  propertyId : String
  propertyName : String
  propertyUrl : String
  location : String
  checkInIso : String
  checkOutIso : String
  guests : Nat
  price : String
  frequency : String
  status : String
  lastNotificationSent : Option Nat
  nextScanAt : Option Nat
  expiresAt : Nat
deriving DecidableEq, Repr

/-! ## AvailabilityChecker (app/services/availability_checker.py) -/

/-- Python `str.strip()` whitespace set (the ASCII part; all URLs handled in
this development are ASCII). -/
def pyIsSpace (c : Char) : Bool :=
  c = ' ' || c = '\t' || c = '\n' || c = '\r' || c = '\x0b' || c = '\x0c'

/-- `str.lower()` (ASCII case folding, the only case arising here). -/
def pyLower (s : List Char) : List Char := s.map Char.toLower

/-- `str.strip()`: drop leading and trailing whitespace. -/
def pyStrip (s : List Char) : List Char :=
  ((s.dropWhile pyIsSpace).reverse.dropWhile pyIsSpace).reverse

/-- `str.rstrip("/")`: drop all trailing slashes. -/
def pyRstripSlash (s : List Char) : List Char :=
  (s.reverse.dropWhile (fun c => c = '/')).reverse

/-- URL normalization used by `_matches_url`:
`url.lower().strip().rstrip("/")`. -/
def normalizeUrl (s : String) : List Char :=
  pyRstripSlash (pyStrip (pyLower s.data))

/-- Maximal run of decimal digits at the head of a character list (the greedy
`(\d+)` group). -/
def leadingDigits : List Char → List Char
  | [] => []
  | c :: cs => if c.isDigit then c :: leadingDigits cs else []

def listStartsWith : List Char → List Char → Bool
  | [], _ => true
  | _ :: _, [] => false
  | p :: ps, c :: cs => p = c && listStartsWith ps cs

def roomsPat : List Char := ['/', 'r', 'o', 'o', 'm', 's', '/']

/-- Leftmost match of the regex pattern matching "/rooms/" followed by one or
more digits; returns the digit group. At each position the engine first tries
the full pattern (literal segment plus at least one digit) and only then
advances, exactly as `re.search` does. -/
def extractIdAux : List Char → Option (List Char)
  | [] => none
  | c :: cs =>
    if listStartsWith roomsPat (c :: cs) then
      let ds := leadingDigits ((c :: cs).drop 7)
      if ds.isEmpty then extractIdAux cs else some ds
    else
      extractIdAux cs

/-- `AvailabilityChecker._extract_property_id`. -/
def extract_property_id (url : String) : Option (List Char) :=
  extractIdAux url.data

/-- `AvailabilityChecker._matches_url`: empty strings are falsy and never
match; then normalized equality; then the numeric-id fallback (both ids must
be present, i.e. truthy, before comparing). -/
def matches_url (scraped_url watch_url : String) : Bool :=
  if scraped_url = "" || watch_url = "" then
    false
  else if normalizeUrl scraped_url = normalizeUrl watch_url then
    true
  else
    match extract_property_id scraped_url, extract_property_id watch_url with
    | some sid, some wid => sid = wid
    | _, _ => false

/-- The PropertyResult literal built (three times, with identical field
expressions) inside `check_availability`. -/
def buildPropertyResult (watch : Watch) (p : ScrapedProperty) : PropertyResult :=
  { propertyId := p.propertyId.getD ""
    propertyName := p.propertyName.getD ""
    location := p.location.getD ""
    price := p.price.getD ""
    imageUrl := p.imageUrl
    dates := watch.checkInIso ++ " - " ++ watch.checkOutIso
    guests := p.guests.getD watch.guests
    status := "available"
    propertyUrl := p.propertyUrl.getD "" }

/-- The `for property_data in scraped_properties` loop of
`check_availability`: per listing, first the URL comparison, then the
propertyId-field comparison (guarded by `watch.propertyId` being truthy);
the first listing passing either test wins. -/
def findMatchingProperty (watch : Watch) :
    List ScrapedProperty → ScanResult × Option PropertyResult
  | [] => (ScanResult.unavailable, none)
  | p :: rest =>
    if matches_url (p.propertyUrl.getD "") watch.propertyUrl then
      (ScanResult.available, some (buildPropertyResult watch p))
    else if watch.propertyId ≠ "" ∧ p.propertyId = some watch.propertyId then
      (ScanResult.available, some (buildPropertyResult watch p))
    else
      findMatchingProperty watch rest

/-- `AvailabilityChecker.check_availability`, given the batch the provider
call returned (a provider exception is handled at the ScanProcessor level,
see `ScanEnv.provider`). -/
def check_availability (watch : Watch) (scraped_properties : List ScrapedProperty) :
    ScanResult × Option PropertyResult :=
  match scraped_properties with
  | [] => (ScanResult.unavailable, none)
  | first :: _ =>
    if watch.propertyUrl = "https://mock-success" then
      (ScanResult.available, some (buildPropertyResult watch first))
    else
      findMatchingProperty watch scraped_properties

/-! ## BookingDetector (app/services/booking_detector.py) -/

/-- A scraped dict after `_compare_results` added its `status` and
`availability` keys. -/
structure TaggedProperty where
  base : ScrapedProperty
  status : String
  availability : String
deriving DecidableEq, Repr

/-- The id set built by `_compare_results`:
`{prop.get("propertyId") for prop in available_properties if prop.get("propertyId")}`
(truthiness drops both missing and empty ids; a list with `contains` is the
same membership structure as the Python set). -/
def availableIdList (available_properties : List ScrapedProperty) : List String :=
  (available_properties.filterMap (fun p => p.propertyId)).filter (fun s => s ≠ "")

/-- The booked test of `_compare_results`:
`if property_id and property_id not in available_ids` (a missing or empty id
is falsy and never classified). -/
def isBookedIn (available_ids : List String) (p : ScrapedProperty) : Bool :=
  match p.propertyId with
  | some pid => pid ≠ "" ∧ ¬ available_ids.contains pid
  | none => false

/-- `BookingDetector._compare_results`. -/
def compare_results (all_properties available_properties : List ScrapedProperty) :
    List TaggedProperty × List TaggedProperty :=
  let available_ids := availableIdList available_properties
  let booked_properties :=
    (all_properties.filter (isBookedIn available_ids)).map
      (fun p => TaggedProperty.mk p "booked" "unavailable")
  let available_props_enriched :=
    available_properties.map (fun p => TaggedProperty.mk p "available" "available")
  (booked_properties, available_props_enriched)

/-- The dictionary returned by `detect_booked_properties` (the fields that are
functions of the two provider batches; `search_metadata` merely echoes the
arguments). -/
structure DetectionResult where
  booked_properties : List TaggedProperty
  available_properties : List TaggedProperty
  total_properties : Nat
  booked_count : Nat
  available_count : Nat
deriving DecidableEq, Repr

/-- `BookingDetector.detect_booked_properties`, applied to the two batches
returned by the date-less and the dated provider searches. -/
def detect_booked_properties (all_properties available_properties : List ScrapedProperty) :
    DetectionResult :=
  let (booked, avail) := compare_results all_properties available_properties
  { booked_properties := booked
    available_properties := avail
    total_properties := all_properties.length
    booked_count := booked.length
    available_count := avail.length }

/-! ## NotificationManager (app/services/notification/manager.py) -/

/-- NotificationType from app/models/notification.py. -/
inductive NotificationType where
  | email
  | sms
deriving DecidableEq, Repr

/-- The observable behaviour of one registered provider's `send` call:
either it returns a boolean or it raises. -/
inductive ProviderOutcome where
  | ok (success : Bool)
  | raises (msg : String)
deriving DecidableEq, Repr

/-- NotificationPreferences from app/models/notification.py (the two flags
the manager reads). -/
structure NotificationPreferences where
  emailEnabled : Bool
  smsEnabled : Bool
deriving DecidableEq, Repr

/-- The manager's `providers` dict: for each channel, `none` when no provider
is registered, otherwise the outcome its `send` produces for this dispatch
(each channel is invoked at most once per `send_multi_channel` call). -/
structure NotificationManager where
  emailProvider : Option ProviderOutcome
  smsProvider : Option ProviderOutcome
deriving DecidableEq, Repr

/-- `NotificationManager.send_notification`: preference gate, provider
lookup, then the guarded `provider.send` call whose exception is caught and
recorded as `False`. Destination and message strings influence nothing but
the provider call, whose behaviour the manager model already carries. -/
def send_notification (m : NotificationManager) (user_prefs : NotificationPreferences)
    (notification_type : NotificationType) : Bool :=
  if notification_type = NotificationType.email ∧ ¬ user_prefs.emailEnabled then
    false
  else if notification_type = NotificationType.sms ∧ ¬ user_prefs.smsEnabled then
    false
  else
    match (match notification_type with
           | NotificationType.email => m.emailProvider
           | NotificationType.sms => m.smsProvider) with
    | none => false
    | some (ProviderOutcome.ok b) => b
    | some (ProviderOutcome.raises _) => false

/-- Python truthiness of an optional destination string. -/
def truthyStr : Option String → Bool
  | none => false
  | some s => s ≠ ""

/-- The per-channel result dict of `send_multi_channel`: a key is present
exactly when that channel was attempted. -/
structure MultiChannelResult where
  email : Option Bool
  sms : Option Bool
deriving DecidableEq, Repr

/-- `NotificationManager.send_multi_channel`. -/
def send_multi_channel (m : NotificationManager) (user_prefs : NotificationPreferences)
    (email phone : Option String) : MultiChannelResult :=
  { email :=
      if user_prefs.emailEnabled ∧ truthyStr email then
        some (send_notification m user_prefs NotificationType.email)
      else none
    sms :=
      if user_prefs.smsEnabled ∧ truthyStr phone then
        some (send_notification m user_prefs NotificationType.sms)
      else none }

/-! ## ScanProcessor (app/services/scan_processor.py) -/

/-- A user document as `_handle_availability_match` reads it:
`user_doc.get("email")`, `user_doc.get("phone")`, and the two preference
flags under `notificationPreferences` (absent flags default to `True` for
email and `False` for SMS at the read site). -/
structure UserDoc where
  email : Option String
  phone : Option String
  emailEnabled : Option Bool
  smsEnabled : Option Bool
deriving DecidableEq, Repr

/-- The environment of one `process_watch` call: for every external
operation the tick performs, whether it returns a value or raises.
`provider` is the `scrape_properties` call inside
`AvailabilityChecker.check_availability`; `freshWatch` is the
`watches.find_one` inside `_should_send_notification` (watch missing /
its current `lastNotificationSent`); `userFetch` is the `users.find_one`;
`notifUpdate` is the `lastNotificationSent` write; `logInsert` the
`scan_logs.insert_one`; `watchUpdate` the write in
`_update_watch_after_scan`; `schedUpdate` the scheduler's own
`nextScanAt` write; `now` the wall clock of this tick. -/
structure ScanEnv where
  provider : Except String (List ScrapedProperty)
  logInsert : Except String Unit
  freshWatch : Except String (Option (Option Nat))
  userFetch : Except String (Option UserDoc)
  manager : NotificationManager
  notifUpdate : Except String Unit
  watchUpdate : Except String Unit
  schedUpdate : Except String Unit
  now : Nat

/-- The state a `process_watch` call builds up: appended scan logs and the
watch-document fields it writes. `dispatched` records the result map of the
`send_multi_channel` call when one was made. -/
structure ProcState where
  scan_logs : List ScanLogRecord
  watchStatus : String
  errorMessage : Option String
  lastScannedSet : Bool
  lastNotificationSent : Option Nat
  dispatched : Option MultiChannelResult
deriving DecidableEq, Repr

/-- `ScanProcessor._create_scan_log` (dates always supplied by the caller in
the embedded paths, so no extra DB read happens): the insert is inside the
method's own `try/except`, so a failing insert only drops the log entry. -/
def create_scan_log (env : ScanEnv) (st : ProcState) (watch_id : String)
    (status : ScanStatus) (result : Option ScanResult)
    (error_message : Option String) : ProcState :=
  match env.logInsert with
  | Except.ok _ =>
    { st with scan_logs := st.scan_logs ++ [ScanLogRecord.mk watch_id status result error_message] }
  | Except.error _ => st

/-- `ScanProcessor._should_send_notification` applied to the fresh
`lastNotificationSent` value (the surrounding DB read is in the caller's
model): `None` means never notified, otherwise the signed comparison
`now - last < timedelta(hours=24)` decides. -/
def should_send_notification (now : Nat) (last_notification : Option Nat) : Bool :=
  match last_notification with
  | none => true
  | some last =>
    if ((now : Int) - (last : Int)) < (NOTIFICATION_COOLDOWN_US : Int) then
      false
    else
      true

/-- `ScanProcessor._handle_availability_match`: the whole body sits in one
`try/except`, so any raise leaves the state as accumulated up to the raise
and returns. A missing fresh watch or a missing user document also just
returns. -/
def handle_availability_match (env : ScanEnv) (st : ProcState) : ProcState :=
  match env.freshWatch with
  | Except.error _ => st
  | Except.ok none => st
  | Except.ok (some last_notification) =>
    if should_send_notification env.now last_notification then
      match env.userFetch with
      | Except.error _ => st
      | Except.ok none => st
      | Except.ok (some user_doc) =>
        let user_prefs : NotificationPreferences :=
          { emailEnabled := user_doc.emailEnabled.getD true
            smsEnabled := user_doc.smsEnabled.getD false }
        let results := send_multi_channel env.manager user_prefs user_doc.email user_doc.phone
        let st1 := { st with dispatched := some results }
        match env.notifUpdate with
        | Except.ok _ => { st1 with lastNotificationSent := some env.now }
        | Except.error _ => st1
    else
      st

/-- `ScanProcessor._update_watch_after_scan`: one guarded `update_one`
setting `status`, `lastScannedAt`, `updatedAt` and, when the error message is
truthy, `errorMessage`; its own `try/except` swallows a failing write. -/
def update_watch_after_scan (env : ScanEnv) (st : ProcState)
    (status : String) (error_message : Option String) : ProcState :=
  match env.watchUpdate with
  | Except.ok _ =>
    let st1 := { st with watchStatus := status, lastScannedSet := true }
    match error_message with
    | some m => if m ≠ "" then { st1 with errorMessage := some m } else st1
    | none => st1
  | Except.error _ => st

/-- The body of `process_watch`'s `try` block up to the point where a raise
can escape to the method's own `except` handler: the only such raise site in
the embedded paths is the provider call inside
`check_availability` (every later helper catches its own exceptions). -/
def process_watch_try (env : ScanEnv) (watch : Watch) :
    Except String (ScanResult × Option PropertyResult) :=
  match env.provider with
  | Except.error e => Except.error e
  | Except.ok scraped => Except.ok (check_availability watch scraped)

/-- `ScanProcessor.process_watch`: success path logs a success ScanLog, runs
the notification sub-flow on an AVAILABLE result, and sets the watch back to
active; the `except` path logs an error ScanLog and sets the watch to error.
The function is total: no exception leaves it. -/
def process_watch (env : ScanEnv) (watch : Watch) : ProcState :=
  let st0 : ProcState :=
    { scan_logs := []
      watchStatus := watch.status
      errorMessage := none
      lastScannedSet := false
      lastNotificationSent := watch.lastNotificationSent
      dispatched := none }
  match process_watch_try env watch with
  | Except.ok (scan_result, _matching) =>
    let st1 := create_scan_log env st0 watch.id ScanStatus.success (some scan_result) none
    let st2 :=
      if scan_result = ScanResult.available then handle_availability_match env st1 else st1
    update_watch_after_scan env st2 "active" none
  | Except.error e =>
    let st1 := create_scan_log env st0 watch.id ScanStatus.error none (some e)
    update_watch_after_scan env st1 "error" (some e)

/-! ## Scheduler (app/services/scheduler.py) -/

/-- The due-watch query of `_process_due_watches`:
`{"status": "active", "nextScanAt": {"$lte": now}}` (a missing or null
`nextScanAt` does not satisfy the `$lte` bound). -/
def isDue (w : Watch) (now : Nat) : Bool :=
  w.status = "active" &&
    match w.nextScanAt with
    | some t => t ≤ now
    | none => false

/-- One due watch's slice of `_process_due_watches`: run `process_watch`,
then unconditionally recompute `nextScanAt` from the watch's frequency and
the tick's `now` and persist it (the write is the per-watch guarded
`update_one`; the surrounding per-watch `try/except` makes its failure
non-fatal). Returns the watch document as stored afterwards. -/
def process_due_watch (env : ScanEnv) (w : Watch) (now : Nat) : Watch :=
  let st := process_watch env w
  let w1 := { w with
    status := st.watchStatus
    lastNotificationSent := st.lastNotificationSent }
  match env.schedUpdate with
  | Except.ok _ => { w1 with nextScanAt := some (calculate_next_scan_time w.frequency now) }
  | Except.error _ => w1

/-! ## Watch creation (app/api/watches.py) -/

/-- A stored watch document restricted to the fields `create_watch` writes
that later scheduling reads. -/
structure StoredWatch where
  userId : String
  status : String
  frequency : String
  nextScanAt : Option Nat
deriving DecidableEq, Repr

/-- The `count_documents({"userId": ..., "status": "active"})` query. -/
def countActiveWatches (userId : String) (db : List StoredWatch) : Nat :=
  (db.filter (fun w => w.userId = userId && w.status = "active")).length

/-- `create_watch` from app/api/watches.py: count the user's active watches,
reject with the HTTP 400 detail string when the cap is reached, otherwise
insert the new active document with `nextScanAt` computed from the
frequency and `now`. -/
def create_watch (userId : String) (frequency : String) (now : Nat)
    (db : List StoredWatch) : Except String (List StoredWatch) :=
  let active_count := countActiveWatches userId db
  if active_count ≥ MAX_ACTIVE_WATCHES_PER_USER then
    Except.error
      "Maximum of 5 active watches allowed. Please delete or pause an existing watch."
  else
    Except.ok (db ++ [{ userId := userId
                        status := "active"
                        frequency := frequency
                        nextScanAt := some (calculate_next_scan_time frequency now) }])

/-! ## Concrete fixtures used by witnesses and counterexamples -/

/-- A watch document with the scanning-relevant fields supplied and neutral
display fields. -/
def mkWatch (url pid freq stat : String) (nextAt lastNotif : Option Nat) : Watch :=
  { id := "watch-1"
    userId := "user-1"
    propertyId := pid
    propertyName := "Test Property"
    propertyUrl := url
    location := "Austin, TX"
    checkInIso := "2024-06-15"
    checkOutIso := "2024-06-18"
    guests := 2
    price := "100"
    frequency := freq
    status := stat
    lastNotificationSent := lastNotif
    nextScanAt := nextAt
    expiresAt := 0 }

/-- An environment in which every external operation succeeds, the provider
returns an empty batch and no user or fresh watch is found. -/
def okEnv : ScanEnv :=
  { provider := Except.ok []
    logInsert := Except.ok ()
    freshWatch := Except.ok none
    userFetch := Except.ok none
    manager := { emailProvider := none, smsProvider := none }
    notifUpdate := Except.ok ()
    watchUpdate := Except.ok ()
    schedUpdate := Except.ok ()
    now := 0 }

/-! ## Shared arithmetic helper -/

/-- Every frequency branch of the next-run computation moves strictly past
the base time. -/
lemma base_time_lt_next_scan (f : String) (t : Nat) :
    t < calculate_next_scan_time f t := by
  unfold calculate_next_scan_time
  split_ifs <;>
    simp only [replaceHourZeroRest, floorToHour, DAILY_SCAN_HOUR,
      HOURLY_SCAN_INTERVAL_HOURS, SNIPER_SCAN_INTERVAL_MINUTES,
      usPerDay, usPerHour, usPerMinute, usPerSecond] <;>
    omega

/-! ## C3 -/

/-- C3: the next-run computation is a pure function of (frequency, base
time). For `daily` it yields the day of `t + 24h` at the configured
hour-of-day with minutes/seconds (and microseconds) zeroed; for `hourly` it
yields the top of the hour after `t` (in particular base 10:30:00 on any day
yields 11:00:00 the same day); for `sniper` exactly `t + 5` minutes with no
clamping; any other frequency value gives the same result as `hourly`. -/
theorem nextScanTime_frequency_cases (f : String) (t d : Nat)
    (hd : f ≠ "daily") (hh : f ≠ "hourly") (hs : f ≠ "sniper") :
    (dayIndex (calculate_next_scan_time "daily" t) = dayIndex (t + usPerDay) ∧
      hourOfDay (calculate_next_scan_time "daily" t) = DAILY_SCAN_HOUR ∧
      calculate_next_scan_time "daily" t % usPerHour = 0) ∧
    (calculate_next_scan_time "hourly" t / usPerHour = t / usPerHour + 1 ∧
      calculate_next_scan_time "hourly" t % usPerHour = 0) ∧
    calculate_next_scan_time "hourly" (d * usPerDay + 10 * usPerHour + 30 * usPerMinute)
      = d * usPerDay + 11 * usPerHour ∧
    calculate_next_scan_time "sniper" t = t + 5 * usPerMinute ∧
    calculate_next_scan_time f t = calculate_next_scan_time "hourly" t := by
  have hdaily : calculate_next_scan_time "daily" t
      = replaceHourZeroRest (t + usPerDay) DAILY_SCAN_HOUR := rfl
  have hhourly : ∀ s : Nat, calculate_next_scan_time "hourly" s
      = floorToHour (s + HOURLY_SCAN_INTERVAL_HOURS * usPerHour) := fun _ => rfl
  refine ⟨⟨?_, ?_, ?_⟩, ⟨?_, ?_⟩, ?_, ?_, ?_⟩
  · rw [hdaily]
    simp only [replaceHourZeroRest, dayIndex, DAILY_SCAN_HOUR, usPerDay, usPerHour,
      usPerMinute, usPerSecond]
    omega
  · rw [hdaily]
    simp only [replaceHourZeroRest, hourOfDay, DAILY_SCAN_HOUR, usPerDay, usPerHour,
      usPerMinute, usPerSecond]
    omega
  · rw [hdaily]
    simp only [replaceHourZeroRest, DAILY_SCAN_HOUR, usPerDay, usPerHour,
      usPerMinute, usPerSecond]
    omega
  · rw [hhourly]
    simp only [floorToHour, HOURLY_SCAN_INTERVAL_HOURS, usPerHour, usPerMinute, usPerSecond]
    omega
  · rw [hhourly]
    simp only [floorToHour, HOURLY_SCAN_INTERVAL_HOURS, usPerHour, usPerMinute, usPerSecond]
    omega
  · rw [hhourly]
    simp only [floorToHour, HOURLY_SCAN_INTERVAL_HOURS, usPerDay, usPerHour,
      usPerMinute, usPerSecond]
    omega
  · rfl
  · unfold calculate_next_scan_time
    rw [if_neg hd, if_neg hh, if_neg hs]
    rfl

/-- Witness for C3: the frequency "weekly" is none of the named tiers and
falls back to the hourly rule. -/
theorem nextScanTime_frequency_cases_witness :
    ("weekly" : String) ≠ "daily" ∧
    calculate_next_scan_time "weekly" 5 = calculate_next_scan_time "hourly" 5 :=
  ⟨by decide, (nextScanTime_frequency_cases "weekly" 5 0
    (by decide) (by decide) (by decide)).2.2.2.2⟩

/-! ## C4 -/

/-- C4: the computed next scan time is at least (in fact strictly after) the
base time for every frequency — so `nextScanAt` set at creation is at least
`now` — and one scheduler tick on a due watch (its stored `nextScanAt` has
elapsed), with the persistence write succeeding, always moves `nextScanAt`
strictly upward, whatever the scan outcome in `env` was. -/
theorem nextScanAt_monotone_advance (f : String) (t : Nat) (env : ScanEnv)
    (w : Watch) (now prev : Nat) (u : String) (db : List StoredWatch)
    (_hprev : w.nextScanAt = some prev) (hdue : prev ≤ now)
    (hupd : env.schedUpdate = Except.ok ())
    (hcap : countActiveWatches u db < MAX_ACTIVE_WATCHES_PER_USER) :
    t ≤ calculate_next_scan_time f t ∧
    create_watch u f t db =
      Except.ok (db ++ [StoredWatch.mk u "active" f (some (calculate_next_scan_time f t))]) ∧
    ∃ next, (process_due_watch env w now).nextScanAt = some next ∧ prev < next := by
  refine ⟨Nat.le_of_lt (base_time_lt_next_scan f t), ?_, ?_⟩
  · unfold create_watch
    rw [if_neg (by omega)]
  refine ⟨calculate_next_scan_time w.frequency now, ?_, ?_⟩
  · simp only [process_due_watch, hupd]
  · exact Nat.lt_of_le_of_lt hdue (base_time_lt_next_scan w.frequency now)

/-- Witness for C4: a due sniper watch (stored next-scan time 100, tick at
now = 200) advances its schedule strictly past 100, and creation in an empty
store succeeds with the computed `nextScanAt`. -/
theorem nextScanAt_monotone_advance_witness :
    (mkWatch "https://www.airbnb.com/rooms/222" "222" "sniper" "active"
        (some 100) none).nextScanAt = some 100 ∧
    ∃ next,
      (process_due_watch okEnv
        (mkWatch "https://www.airbnb.com/rooms/222" "222" "sniper" "active"
          (some 100) none) 200).nextScanAt = some next ∧ 100 < next :=
  ⟨rfl, (nextScanAt_monotone_advance "sniper" 0 okEnv
    (mkWatch "https://www.airbnb.com/rooms/222" "222" "sniper" "active"
      (some 100) none) 200 100 "user-1" [] rfl (by decide) rfl (by decide)).2.2⟩

/-! ## C8 -/

/-- C8: a user who already has 5 active watches has a 6th creation rejected
with the HTTP 400 detail string; the rejection happens before the insert, so
`create_watch` never returns a database state and the stored list is
unchanged. -/
theorem create_watch_rejected_at_cap (u f : String) (now : Nat)
    (db : List StoredWatch) (hcount : countActiveWatches u db = 5) :
    create_watch u f now db =
      Except.error
        "Maximum of 5 active watches allowed. Please delete or pause an existing watch." ∧
    ∀ db2 : List StoredWatch, create_watch u f now db ≠ Except.ok db2 := by
  have hge : countActiveWatches u db ≥ MAX_ACTIVE_WATCHES_PER_USER := by
    rw [hcount]; decide
  have herr : create_watch u f now db =
      Except.error
        "Maximum of 5 active watches allowed. Please delete or pause an existing watch." := by
    unfold create_watch
    rw [if_pos hge]
  exact ⟨herr, fun db2 hok => by rw [herr] at hok; exact Except.noConfusion hok⟩

/-- Witness for C8: a concrete user with exactly 5 stored active watches is
rejected. -/
theorem create_watch_rejected_at_cap_witness :
    countActiveWatches "user-1"
      (List.replicate 5 (StoredWatch.mk "user-1" "active" "daily" none)) = 5 ∧
    create_watch "user-1" "hourly" 0
        (List.replicate 5 (StoredWatch.mk "user-1" "active" "daily" none)) =
      Except.error
        "Maximum of 5 active watches allowed. Please delete or pause an existing watch." :=
  ⟨by decide,
    (create_watch_rejected_at_cap "user-1" "hourly" 0
      (List.replicate 5 (StoredWatch.mk "user-1" "active" "daily" none)) (by decide)).1⟩

/-! ## C10 -/

/-- C10: a watch whose propertyUrl is exactly the sentinel
"https://mock-success" gets AVAILABLE with a PropertyResult built from the
first listing of any non-empty batch, with no URL or property-id matching
consulted; an empty batch still yields UNAVAILABLE with no listing. -/
theorem mock_success_forces_first_listing (watch : Watch) (first : ScrapedProperty)
    (rest : List ScrapedProperty)
    (hmock : watch.propertyUrl = "https://mock-success") :
    check_availability watch (first :: rest)
      = (ScanResult.available, some (buildPropertyResult watch first)) ∧
    check_availability watch [] = (ScanResult.unavailable, none) := by
  constructor
  · simp only [check_availability, hmock, if_pos]
  · rfl

/-- Witness for C10: a mock-success watch against a batch whose sole listing
matches nothing. -/
theorem mock_success_forces_first_listing_witness :
    (mkWatch "https://mock-success" "" "hourly" "active" none none).propertyUrl
      = "https://mock-success" ∧
    check_availability (mkWatch "https://mock-success" "" "hourly" "active" none none)
        [ScrapedProperty.mk (some "42") (some "Loft") (some "Austin, TX") (some "75")
          none (some 2) (some "https://www.airbnb.com/rooms/42")]
      = (ScanResult.available,
          some (buildPropertyResult
            (mkWatch "https://mock-success" "" "hourly" "active" none none)
            (ScrapedProperty.mk (some "42") (some "Loft") (some "Austin, TX") (some "75")
              none (some 2) (some "https://www.airbnb.com/rooms/42")))) :=
  ⟨rfl,
    (mock_success_forces_first_listing
      (mkWatch "https://mock-success" "" "hourly" "active" none none)
      (ScrapedProperty.mk (some "42") (some "Loft") (some "Austin, TX") (some "75")
        none (some 2) (some "https://www.airbnb.com/rooms/42"))
      [] rfl).1⟩

/-! ## C9 -/

/-- C9: in a multi-channel dispatch a channel is attempted exactly when its
preference flag is enabled and a truthy destination exists; an attempted
channel's provider outcome is recorded in the returned map (a provider
exception is recorded as failure, never propagated — the dispatch function is
total); and each channel's entry depends only on that channel's own provider,
so no channel's outcome affects whether or how another is attempted. -/
theorem multi_channel_isolation (m m2 : NotificationManager)
    (prefs : NotificationPreferences) (email phone : Option String) :
    ((send_multi_channel m prefs email phone).email.isSome ↔
      prefs.emailEnabled = true ∧ truthyStr email = true) ∧
    ((send_multi_channel m prefs email phone).sms.isSome ↔
      prefs.smsEnabled = true ∧ truthyStr phone = true) ∧
    (∀ b, m.emailProvider = some (ProviderOutcome.ok b) →
      prefs.emailEnabled = true → truthyStr email = true →
      (send_multi_channel m prefs email phone).email = some b) ∧
    (∀ msg, m.emailProvider = some (ProviderOutcome.raises msg) →
      prefs.emailEnabled = true → truthyStr email = true →
      (send_multi_channel m prefs email phone).email = some false) ∧
    (∀ b, m.smsProvider = some (ProviderOutcome.ok b) →
      prefs.smsEnabled = true → truthyStr phone = true →
      (send_multi_channel m prefs email phone).sms = some b) ∧
    (∀ msg, m.smsProvider = some (ProviderOutcome.raises msg) →
      prefs.smsEnabled = true → truthyStr phone = true →
      (send_multi_channel m prefs email phone).sms = some false) ∧
    (m2.smsProvider = m.smsProvider →
      (send_multi_channel m2 prefs email phone).sms
        = (send_multi_channel m prefs email phone).sms) ∧
    (m2.emailProvider = m.emailProvider →
      (send_multi_channel m2 prefs email phone).email
        = (send_multi_channel m prefs email phone).email) := by
  refine ⟨?_, ?_, ?_, ?_, ?_, ?_, ?_, ?_⟩
  · simp only [send_multi_channel]
    split_ifs with h
    · simpa using h
    · simpa using h
  · simp only [send_multi_channel]
    split_ifs with h
    · simpa using h
    · simpa using h
  · intro b hb he ht
    simp [send_multi_channel, send_notification, he, ht, hb]
  · intro msg hmsg he ht
    simp [send_multi_channel, send_notification, he, ht, hmsg]
  · intro b hb hs ht
    simp [send_multi_channel, send_notification, hs, ht, hb]
  · intro msg hmsg hs ht
    simp [send_multi_channel, send_notification, hs, ht, hmsg]
  · intro hsame
    simp [send_multi_channel, send_notification, hsame]
  · intro hsame
    simp [send_multi_channel, send_notification, hsame]

/-- Witness for C9: email enabled with an address and a provider that
raises, SMS enabled with a phone number and a provider that succeeds — the
email failure is recorded and the SMS channel is still attempted and
succeeds. -/
theorem multi_channel_isolation_witness :
    (send_multi_channel
        (NotificationManager.mk (some (ProviderOutcome.raises "smtp down"))
          (some (ProviderOutcome.ok true)))
        (NotificationPreferences.mk true true)
        (some "a@b.c") (some "+15550100")).email = some false ∧
    (send_multi_channel
        (NotificationManager.mk (some (ProviderOutcome.raises "smtp down"))
          (some (ProviderOutcome.ok true)))
        (NotificationPreferences.mk true true)
        (some "a@b.c") (some "+15550100")).sms = some true :=
  ⟨(multi_channel_isolation
      (NotificationManager.mk (some (ProviderOutcome.raises "smtp down"))
        (some (ProviderOutcome.ok true)))
      (NotificationManager.mk (some (ProviderOutcome.raises "smtp down"))
        (some (ProviderOutcome.ok true)))
      (NotificationPreferences.mk true true)
      (some "a@b.c") (some "+15550100")).2.2.2.1 "smtp down" rfl rfl (by decide),
   (multi_channel_isolation
      (NotificationManager.mk (some (ProviderOutcome.raises "smtp down"))
        (some (ProviderOutcome.ok true)))
      (NotificationManager.mk (some (ProviderOutcome.raises "smtp down"))
        (some (ProviderOutcome.ok true)))
      (NotificationPreferences.mk true true)
      (some "a@b.c") (some "+15550100")).2.2.2.2.1 true rfl rfl (by decide)⟩

/-! ## C5 -/

/-- Appending (or failing to append) a scan log never touches the dispatch
record. -/
lemma create_scan_log_dispatched (env : ScanEnv) (st : ProcState) (wid : String)
    (s : ScanStatus) (r : Option ScanResult) (e : Option String) :
    (create_scan_log env st wid s r e).dispatched = st.dispatched := by
  unfold create_scan_log
  cases env.logInsert <;> rfl

/-- The final watch update never touches the dispatch record. -/
lemma update_watch_dispatched (env : ScanEnv) (st : ProcState)
    (s : String) (e : Option String) :
    (update_watch_after_scan env st s e).dispatched = st.dispatched := by
  unfold update_watch_after_scan
  cases env.watchUpdate
  · rfl
  · cases e
    · rfl
    · dsimp only
      split_ifs <;> rfl

/-- C5: the notification sub-flow is gated on the cooldown. With the fresh
watch read succeeding: a null `lastNotificationSent` passes the gate; a
non-null one passes exactly when `now - lastNotificationSent` is at least the
24h cooldown; inside the cooldown no dispatch is attempted (the result map
stays whatever it was); past the cooldown, with the user found, the
multi-channel dispatch is attempted; and at the `process_watch` level a
repeated AVAILABLE result inside the cooldown produces no dispatch. -/
theorem notification_cooldown_gate (env : ScanEnv) (watch : Watch)
    (st : ProcState) (l : Nat) (u : UserDoc) :
    should_send_notification env.now none = true ∧
    (should_send_notification env.now (some l) = true ↔
      (NOTIFICATION_COOLDOWN_US : Int) ≤ (env.now : Int) - (l : Int)) ∧
    (env.freshWatch = Except.ok (some (some l)) →
      ((env.now : Int) - (l : Int)) < (NOTIFICATION_COOLDOWN_US : Int) →
      (handle_availability_match env st).dispatched = st.dispatched) ∧
    (env.freshWatch = Except.ok (some (some l)) →
      (NOTIFICATION_COOLDOWN_US : Int) ≤ (env.now : Int) - (l : Int) →
      env.userFetch = Except.ok (some u) →
      (handle_availability_match env st).dispatched =
        some (send_multi_channel env.manager
          (NotificationPreferences.mk (u.emailEnabled.getD true) (u.smsEnabled.getD false))
          u.email u.phone)) ∧
    (∀ scraped, env.provider = Except.ok scraped →
      env.freshWatch = Except.ok (some (some l)) →
      ((env.now : Int) - (l : Int)) < (NOTIFICATION_COOLDOWN_US : Int) →
      (process_watch env watch).dispatched = none) := by
  have hgate_false : ((env.now : Int) - (l : Int)) < (NOTIFICATION_COOLDOWN_US : Int) →
      should_send_notification env.now (some l) = false := by
    intro hlt
    simp only [should_send_notification, if_pos hlt]
  refine ⟨rfl, ?_, ?_, ?_, ?_⟩
  · simp only [should_send_notification]
    split_ifs with h
    · simp only [Bool.false_eq_true, false_iff]
      omega
    · simp only [true_iff]
      omega
  · intro hfresh hlt
    simp only [handle_availability_match, hfresh, hgate_false hlt, Bool.false_eq_true,
      if_false]
  · intro hfresh hge huser
    have hsend : should_send_notification env.now (some l) = true := by
      simp only [should_send_notification]
      split_ifs with h
      · omega
      · rfl
    simp only [handle_availability_match, hfresh, hsend, if_true, huser]
    cases hnu : env.notifUpdate <;> simp [hnu]
  · intro scraped hprov hfresh hlt
    have hbody : process_watch_try env watch
        = Except.ok (check_availability watch scraped) := by
      simp only [process_watch_try, hprov]
    simp only [process_watch, hbody]
    rw [update_watch_dispatched]
    split_ifs with havail
    · simp only [handle_availability_match, hfresh, hgate_false hlt, Bool.false_eq_true,
        if_false]
      rw [create_scan_log_dispatched]
    · rw [create_scan_log_dispatched]

/-- Witness for C5: last notification sent at time 0, current time exactly
24h + 1s later — the gate passes and a dispatch is attempted (with the
user's channels resolved). -/
theorem notification_cooldown_gate_witness :
    (NOTIFICATION_COOLDOWN_US : Int) ≤ (((NOTIFICATION_COOLDOWN_US + usPerSecond : Nat) : Int) - (0 : Int)) ∧
    (handle_availability_match
        { okEnv with
            now := NOTIFICATION_COOLDOWN_US + usPerSecond
            freshWatch := Except.ok (some (some 0))
            userFetch := Except.ok (some (UserDoc.mk (some "a@b.c") none none none)) }
        (ProcState.mk [] "active" none false none none)).dispatched =
      some (send_multi_channel
        { emailProvider := none, smsProvider := none }
        (NotificationPreferences.mk true false)
        (some "a@b.c") none) := by
  refine ⟨by decide, ?_⟩
  have h := (notification_cooldown_gate
    { okEnv with
        now := NOTIFICATION_COOLDOWN_US + usPerSecond
        freshWatch := Except.ok (some (some 0))
        userFetch := Except.ok (some (UserDoc.mk (some "a@b.c") none none none)) }
    (mkWatch "https://mock-success" "" "hourly" "active" none none)
    (ProcState.mk [] "active" none false none none)
    0 (UserDoc.mk (some "a@b.c") none none none)).2.2.2.1 rfl (by decide) rfl
  simpa using h

/-! ## C7 -/

/-- The id set built from the dated batch holds an id (which is necessarily
truthy) exactly when some dated listing carries it. -/
lemma contains_availableIdList (dated : List ScrapedProperty) (pid : String)
    (hne : pid ≠ "") :
    (availableIdList dated).contains pid = true ↔
      ∃ q ∈ dated, q.propertyId = some pid := by
  rw [List.elem_iff]
  unfold availableIdList
  simp [List.mem_filter, List.mem_filterMap, hne]

/-- C7: differential booking detection. A date-less listing carrying a
property id is classified booked exactly when no dated listing carries that
id; every dated listing is classified available; and the three counters are
the sizes of the booked list, the available list and the date-less batch. -/
theorem differential_booking_classification (all dated : List ScrapedProperty)
    (p : ScrapedProperty) (pid : String)
    (hp : p ∈ all) (hid : p.propertyId = some pid) (hne : pid ≠ "") :
    (TaggedProperty.mk p "booked" "unavailable" ∈
        (detect_booked_properties all dated).booked_properties ↔
      ¬ ∃ q ∈ dated, q.propertyId = some pid) ∧
    (∀ q ∈ dated, TaggedProperty.mk q "available" "available" ∈
        (detect_booked_properties all dated).available_properties) ∧
    (detect_booked_properties all dated).booked_count =
      (detect_booked_properties all dated).booked_properties.length ∧
    (detect_booked_properties all dated).available_count =
      (detect_booked_properties all dated).available_properties.length ∧
    (detect_booked_properties all dated).total_properties = all.length := by
  refine ⟨?_, ?_, rfl, rfl, rfl⟩
  · have hmem : TaggedProperty.mk p "booked" "unavailable" ∈
        (detect_booked_properties all dated).booked_properties ↔
        isBookedIn (availableIdList dated) p = true := by
      simp only [detect_booked_properties, compare_results, List.mem_map,
        List.mem_filter, TaggedProperty.mk.injEq]
      constructor
      · rintro ⟨a, ⟨_, hb⟩, rfl, -, -⟩
        exact hb
      · intro hb
        exact ⟨p, ⟨hp, hb⟩, rfl, trivial, trivial⟩
    rw [hmem]
    have hbooked : isBookedIn (availableIdList dated) p = true ↔
        ¬ (availableIdList dated).contains pid = true := by
      simp [isBookedIn, hid, hne]
    rw [hbooked, contains_availableIdList dated pid hne]
  · intro q hq
    simp only [detect_booked_properties, compare_results, List.mem_map]
    exact ⟨q, hq, rfl⟩

/-- Witness for C7: the spec scenario — date-less ids 1,2,3 and dated id 2
give booked listing 1 (and counts 2 booked / 1 available / 3 total, checked
directly on the same input). -/
theorem differential_booking_classification_witness :
    ScrapedProperty.mk (some "1") none none none none none none ∈
      [ScrapedProperty.mk (some "1") none none none none none none,
       ScrapedProperty.mk (some "2") none none none none none none,
       ScrapedProperty.mk (some "3") none none none none none none] ∧
    (TaggedProperty.mk (ScrapedProperty.mk (some "1") none none none none none none)
        "booked" "unavailable" ∈
      (detect_booked_properties
        [ScrapedProperty.mk (some "1") none none none none none none,
         ScrapedProperty.mk (some "2") none none none none none none,
         ScrapedProperty.mk (some "3") none none none none none none]
        [ScrapedProperty.mk (some "2") none none none none none none]).booked_properties) ∧
    (detect_booked_properties
        [ScrapedProperty.mk (some "1") none none none none none none,
         ScrapedProperty.mk (some "2") none none none none none none,
         ScrapedProperty.mk (some "3") none none none none none none]
        [ScrapedProperty.mk (some "2") none none none none none none]).booked_count = 2 ∧
    (detect_booked_properties
        [ScrapedProperty.mk (some "1") none none none none none none,
         ScrapedProperty.mk (some "2") none none none none none none,
         ScrapedProperty.mk (some "3") none none none none none none]
        [ScrapedProperty.mk (some "2") none none none none none none]).available_count = 1 ∧
    (detect_booked_properties
        [ScrapedProperty.mk (some "1") none none none none none none,
         ScrapedProperty.mk (some "2") none none none none none none,
         ScrapedProperty.mk (some "3") none none none none none none]
        [ScrapedProperty.mk (some "2") none none none none none none]).total_properties = 3 := by
  refine ⟨by decide, ?_, by decide, by decide, by decide⟩
  exact (differential_booking_classification
    [ScrapedProperty.mk (some "1") none none none none none none,
     ScrapedProperty.mk (some "2") none none none none none none,
     ScrapedProperty.mk (some "3") none none none none none none]
    [ScrapedProperty.mk (some "2") none none none none none none]
    (ScrapedProperty.mk (some "1") none none none none none none)
    "1" (by decide) rfl (by decide)).1.mpr (by decide)

/-! ## C6 -/

/-- The per-listing match test of the `check_availability` loop: the URL
test (normalized equality, then numeric rooms-id fallback) or the
propertyId-field test (watch id truthy and equal to the listing's id). -/
def listingMatches (watch : Watch) (p : ScrapedProperty) : Bool :=
  matches_url (p.propertyUrl.getD "") watch.propertyUrl ||
    (watch.propertyId ≠ "" ∧ p.propertyId = some watch.propertyId)

/-- The scan loop returns the first listing passing `listingMatches`, as a
`List.find?`. -/
lemma findMatching_eq_findFirst (watch : Watch) (l : List ScrapedProperty) :
    findMatchingProperty watch l =
      match l.find? (listingMatches watch) with
      | some p => (ScanResult.available, some (buildPropertyResult watch p))
      | none => (ScanResult.unavailable, none) := by
  induction l with
  | nil => rfl
  | cons p rest ih =>
    by_cases h1 : matches_url (p.propertyUrl.getD "") watch.propertyUrl = true
    · have hm : listingMatches watch p = true := by
        simp [listingMatches, h1]
      rw [List.find?_cons_of_pos _ hm]
      simp only [findMatchingProperty, if_pos h1]
    · have h1' : matches_url (p.propertyUrl.getD "") watch.propertyUrl = false := by
        simpa using h1
      by_cases h2 : watch.propertyId ≠ "" ∧ p.propertyId = some watch.propertyId
      · have hm : listingMatches watch p = true := by
          simp [listingMatches, h2]
        rw [List.find?_cons_of_pos _ hm]
        simp only [findMatchingProperty, h1', Bool.false_eq_true, if_false, if_pos h2]
      · have hm : listingMatches watch p = false := by
          simp only [listingMatches, h1', Bool.false_or]
          simpa using h2
        rw [List.find?_cons_of_neg _ (by simp [hm])]
        simp only [findMatchingProperty, h1', Bool.false_eq_true, if_false, if_neg h2]
        exact ih

/-- C6 (amended): for a watch whose propertyUrl is not the mock sentinel,
`check_availability` scans the batch in order and the first listing matching
by normalized URL, by extracted numeric rooms-id, or by propertyId-field
equality wins, yielding AVAILABLE with that listing; with no such listing
(in particular on an empty batch, where no comparison is attempted) the
result is UNAVAILABLE with null. -/
theorem check_availability_first_match (watch : Watch) (batch : List ScrapedProperty)
    (hmock : watch.propertyUrl ≠ "https://mock-success") :
    check_availability watch batch =
      match batch.find? (listingMatches watch) with
      | some p => (ScanResult.available, some (buildPropertyResult watch p))
      | none => (ScanResult.unavailable, none) := by
  cases batch with
  | nil => rfl
  | cons first rest =>
    simp only [check_availability, if_neg hmock]
    exact findMatching_eq_findFirst watch (first :: rest)

/-- Witness for C6: the spec's matching scenario — batch
[rooms/111, rooms/222?x=1] against a watch on rooms/222 yields AVAILABLE
matched to the second listing (rooms-id fallback across differing query
strings). -/
theorem check_availability_first_match_witness :
    (mkWatch "https://www.airbnb.com/rooms/222" "" "hourly" "active" none none).propertyUrl
        ≠ "https://mock-success" ∧
    check_availability
        (mkWatch "https://www.airbnb.com/rooms/222" "" "hourly" "active" none none)
        [ScrapedProperty.mk (some "111") none none none none none
          (some "https://www.airbnb.com/rooms/111"),
         ScrapedProperty.mk (some "222") none none none none none
          (some "https://www.airbnb.com/rooms/222?x=1")]
      = (ScanResult.available,
          some (buildPropertyResult
            (mkWatch "https://www.airbnb.com/rooms/222" "" "hourly" "active" none none)
            (ScrapedProperty.mk (some "222") none none none none none
              (some "https://www.airbnb.com/rooms/222?x=1")))) := by
  refine ⟨by decide, ?_⟩
  have h := check_availability_first_match
    (mkWatch "https://www.airbnb.com/rooms/222" "" "hourly" "active" none none)
    [ScrapedProperty.mk (some "111") none none none none none
      (some "https://www.airbnb.com/rooms/111"),
     ScrapedProperty.mk (some "222") none none none none none
      (some "https://www.airbnb.com/rooms/222?x=1")]
    (by decide)
  rw [h]
  decide

/-- Counterexample to C6 as stated: a batch listing with no URL relation to
the watch at all — neither the normalized URLs nor any extractable rooms-id
match — is still returned as AVAILABLE because its propertyId field equals
the watch's propertyId, a third match avenue the claim omits. Under the
claim's matching rule this input should give UNAVAILABLE with null. -/
theorem check_availability_propertyId_counterexample :
    matches_url "https://b.example/listing-two" "https://a.example/listing-one" = false ∧
    extract_property_id "https://b.example/listing-two" = none ∧
    extract_property_id "https://a.example/listing-one" = none ∧
    (check_availability
        (mkWatch "https://a.example/listing-one" "99" "daily" "active" none none)
        [ScrapedProperty.mk (some "99") (some "Name") (some "Loc") (some "50") none
          (some 2) (some "https://b.example/listing-two")]).1
      = ScanResult.available := by
  decide

/-! ## C1 -/

/-- An environment identical to `okEnv` except that the scan-log insert
raises. -/
def logFailEnv : ScanEnv := { okEnv with logInsert := Except.error "insert failed" }

/-- C1 (amended): when the availability check raises — the provider call is
the raise site reaching `process_watch`'s own handler — and the two
persistence writes of the error path succeed, `process_watch` appends
exactly one ScanLog with status error, null result and the exception's
message, marks the watch status error with that message (and a fresh
`lastScannedAt`), and never reaches the notification sub-flow. The embedded
`process_watch` is a total function of its environment: no exception leaves
it on any path. -/
theorem process_watch_provider_error (env : ScanEnv) (watch : Watch) (e : String)
    (hprov : env.provider = Except.error e)
    (hlog : env.logInsert = Except.ok ())
    (hupd : env.watchUpdate = Except.ok ())
    (hne : e ≠ "") :
    (process_watch env watch).scan_logs =
      [ScanLogRecord.mk watch.id ScanStatus.error none (some e)] ∧
    (process_watch env watch).watchStatus = "error" ∧
    (process_watch env watch).errorMessage = some e ∧
    (process_watch env watch).lastScannedSet = true ∧
    (process_watch env watch).dispatched = none := by
  have hbody : process_watch_try env watch = Except.error e := by
    simp only [process_watch_try, hprov]
  simp only [process_watch, hbody, create_scan_log, hlog, update_watch_after_scan, hupd]
  simp [hne]

/-- Witness for C1 (amended): a concrete provider timeout with working
persistence produces the error log and the error status. -/
theorem process_watch_provider_error_witness :
    (process_watch { okEnv with provider := Except.error "timeout" }
        (mkWatch "https://www.airbnb.com/rooms/7" "7" "daily" "active" none none)).scan_logs
      = [ScanLogRecord.mk "watch-1" ScanStatus.error none (some "timeout")] ∧
    (process_watch { okEnv with provider := Except.error "timeout" }
        (mkWatch "https://www.airbnb.com/rooms/7" "7" "daily" "active" none none)).watchStatus
      = "error" :=
  ⟨(process_watch_provider_error { okEnv with provider := Except.error "timeout" }
      (mkWatch "https://www.airbnb.com/rooms/7" "7" "daily" "active" none none)
      "timeout" rfl rfl rfl (by decide)).1,
   (process_watch_provider_error { okEnv with provider := Except.error "timeout" }
      (mkWatch "https://www.airbnb.com/rooms/7" "7" "daily" "active" none none)
      "timeout" rfl rfl rfl (by decide)).2.1⟩

/-- Counterexample to C1 as stated: the claim also covers exceptions raised
during the scan-log step, but `_create_scan_log` catches its own insert
failure, so the tick continues on the success path. Here the availability
check itself succeeds (empty batch, UNAVAILABLE) while the scan-log insert
raises: the code appends no ScanLog at all and sets the watch back to
status active, where the claim requires an error ScanLog and status error. -/
theorem process_watch_helper_error_counterexample :
    logFailEnv.provider = Except.ok [] ∧
    (process_watch logFailEnv
        (mkWatch "https://www.airbnb.com/rooms/7" "7" "daily" "active" none none)).scan_logs
      = [] ∧
    (process_watch logFailEnv
        (mkWatch "https://www.airbnb.com/rooms/7" "7" "daily" "active" none none)).watchStatus
      = "active" ∧
    (process_watch logFailEnv
        (mkWatch "https://www.airbnb.com/rooms/7" "7" "daily" "active" none none)).errorMessage
      = none :=
  ⟨rfl, rfl, rfl, rfl⟩

/-! ## C2 -/

/-- An environment identical to `okEnv` except that the provider call
raises a transient error. -/
def providerFailEnv : ScanEnv := { okEnv with provider := Except.error "timeout" }

/-- C2 (amended): after a tick whose provider call failed transiently (and
whose persistence writes succeeded), the watch holds status error and its
`nextScanAt` was still recomputed normally from its frequency; but the
scheduler's due query selects only watches with status active, so the
errored watch is not due at any later time — it is not retried on the next
cadence until something else resets its status. -/
theorem provider_error_tick_outcome (env : ScanEnv) (w : Watch) (now : Nat) (e : String)
    (hprov : env.provider = Except.error e)
    (hupd : env.watchUpdate = Except.ok ())
    (hsched : env.schedUpdate = Except.ok ()) :
    (process_due_watch env w now).status = "error" ∧
    (process_due_watch env w now).nextScanAt =
      some (calculate_next_scan_time w.frequency now) ∧
    ∀ later : Nat, isDue (process_due_watch env w now) later = false := by
  have hbody : process_watch_try env w = Except.error e := by
    simp only [process_watch_try, hprov]
  have hstatus : (process_watch env w).watchStatus = "error" := by
    simp only [process_watch, hbody]
    unfold update_watch_after_scan
    rw [hupd]
    dsimp only
    split_ifs <;> rfl
  have hst : (process_due_watch env w now).status = "error" := by
    simp only [process_due_watch, hsched]
    exact hstatus
  refine ⟨hst, ?_, ?_⟩
  · simp only [process_due_watch, hsched]
  · intro later
    simp [isDue, hst]

/-- Witness for C2 (amended): a concrete due sniper watch whose provider
times out at now = 0 ends with status error, next scan recomputed to
5 minutes, and is not due even ten days later. -/
theorem provider_error_tick_outcome_witness :
    (process_due_watch providerFailEnv
        (mkWatch "https://www.airbnb.com/rooms/7" "7" "sniper" "active" (some 0) none)
        0).status = "error" ∧
    ∀ later : Nat, isDue (process_due_watch providerFailEnv
        (mkWatch "https://www.airbnb.com/rooms/7" "7" "sniper" "active" (some 0) none)
        0) later = false :=
  ⟨(provider_error_tick_outcome providerFailEnv
      (mkWatch "https://www.airbnb.com/rooms/7" "7" "sniper" "active" (some 0) none)
      0 "timeout" rfl rfl rfl).1,
   (provider_error_tick_outcome providerFailEnv
      (mkWatch "https://www.airbnb.com/rooms/7" "7" "sniper" "active" (some 0) none)
      0 "timeout" rfl rfl rfl).2.2⟩

/-- Counterexample to C2 as stated: after the failed tick the schedule time
has been recomputed (0 becomes 5 minutes) and has long elapsed by ten days
later, yet the due query does not select the watch — so it is not "scanned
again on the next cadence tick once that time elapses"; the status filter of
the query excludes status error. -/
theorem retry_on_next_cadence_counterexample :
    (process_due_watch providerFailEnv
        (mkWatch "https://www.airbnb.com/rooms/7" "7" "sniper" "active" (some 0) none)
        0).nextScanAt = some 300000000 ∧
    300000000 ≤ 10 * usPerDay ∧
    isDue (process_due_watch providerFailEnv
        (mkWatch "https://www.airbnb.com/rooms/7" "7" "sniper" "active" (some 0) none)
        0) (10 * usPerDay) = false := by
  refine ⟨by decide, by decide, by decide⟩

end BnbAlerts
